import Mathlib

/-!
Verification of the lookup-and-aggregation pipeline of `simplegeoip2.py`.

The Python source is shallowly embedded: the external geoip2 database readers
are modelled as function parameters returning an explicit three-way outcome
(record found / AddressNotFoundError / any other exception), Python exceptions
become `Except`, and Python `None` becomes `Option`. String primitives
(`str.split`, `str.strip`, `int(...)`) are re-implemented structurally on
`List Char` so that every definition evaluates inside the kernel.
-/

deriving instance DecidableEq for Except

/-- Python exceptions that the embedded code can raise. -/
inductive PyExc where
  | valueError
  | nameError
  | readerError
  deriving DecidableEq

/-- Outcome of one geoip2 reader call (`reader.asn(ip)` or `reader.city(ip)`):
either a record, or `AddressNotFoundError`, or any other exception (e.g.
`ValueError` for an address string the reader cannot parse). -/
inductive ReaderResult (α : Type) where
  | found : α → ReaderResult α
  | notFound : ReaderResult α
  | failure : ReaderResult α
  deriving DecidableEq

/-- Which of the two databases a `lookup` call touched. -/
inductive DbKind where
  | asn
  | city
  deriving DecidableEq

/-- Model of Python `str.split(sep)` for a single-character separator, on
char lists: `"".split('.') == ['']`, `"a..b".split('.') == ['a','','b']`. -/
def pySplit (sep : Char) : List Char → List (List Char)
  | [] => [[]]
  | c :: cs =>
    match pySplit sep cs with
    | h :: t => if c = sep then [] :: h :: t else (c :: h) :: t
    | [] => [[]]

/-- Python `str.split(sep)` at the `String` level. -/
def pySplitStr (sep : Char) (s : String) : List String :=
  (pySplit sep s.toList).map (fun cs => String.mk cs)

/-- Drop leading whitespace characters. -/
def dropLeadingWs : List Char → List Char
  | [] => []
  | c :: cs => if c.isWhitespace then dropLeadingWs cs else c :: cs

/-- Model of Python `str.strip()` (as `int(...)` applies it): whitespace is
removed from both ends. Restricted to ASCII whitespace, which covers every
input considered in this development. -/
def pyStripChars (cs : List Char) : List Char :=
  (dropLeadingWs (dropLeadingWs cs.reverse).reverse)

/-- Tail of a Python integer literal after its first digit: ASCII digits, with
single underscores allowed only between digits (`1_6` parses, `1__6` and `16_`
do not). -/
def pyIntTail : List Char → Bool
  | [] => true
  | '_' :: c :: cs => c.isDigit && pyIntTail cs
  | ['_'] => false
  | c :: cs => c.isDigit && pyIntTail cs

/-- Numeric value of a digit string, underscores skipped. -/
def pyDigitsVal (cs : List Char) : Nat :=
  (cs.filter (fun d => d ≠ '_')).foldl (fun a d => 10 * a + (d.toNat - '0'.toNat)) 0

/-- Model of Python `int(s)` (base 10): optional surrounding whitespace,
optional single sign, then a nonempty digit string with underscore separators
between digits. `none` models `int` raising `ValueError`. Restricted to ASCII
digits and whitespace, which covers every input considered here. -/
def pyInt (s : String) : Option Int :=
  let t := pyStripChars s.toList
  let neg : Bool := match t with
    | '-' :: _ => true
    | _ => false
  let u : List Char := match t with
    | '+' :: r => r
    | '-' :: r => r
    | r => r
  match u with
  | [] => none
  | c :: cs =>
    if c.isDigit && pyIntTail cs then
      some (if neg then -(pyDigitsVal (c :: cs) : Int) else (pyDigitsVal (c :: cs) : Int))
    else none

/-- Embedding of `GeoIP.is_private_ip` (src lines 111-122):

    parts = ip_address.split('.')
    return len(parts) == 4 and parts[0] in ('10', '192', '172')
           and (parts[0] == '10' or (16 <= int(parts[1]) <= 31))

Python `and`/`or` short-circuit, so `int(parts[1])` is evaluated (and can
raise `ValueError`) only when there are exactly 4 parts and the first part is
`"192"` or `"172"`. -/
def is_private_ip (ip_address : String) : Except PyExc Bool :=
  let parts := pySplitStr '.' ip_address
  if parts.length = 4 ∧
      (parts.getD 0 "" = "10" ∨ parts.getD 0 "" = "192" ∨ parts.getD 0 "" = "172") then
    if parts.getD 0 "" = "10" then
      Except.ok true
    else
      match pyInt (parts.getD 1 "") with
      | none => Except.error PyExc.valueError
      | some n => Except.ok (decide (16 ≤ n ∧ n ≤ 31))
  else
    Except.ok false

/-- The fields read off a geoip2 ASN response (src lines 62-63). -/
structure AsnResponse where
  autonomous_system_number : Option Int
  autonomous_system_organization : Option String
  deriving DecidableEq

/-- The fields read off a geoip2 City response (src lines 64-70):
`city.name`, `subdivisions.most_specific.name`, `country.name`,
`subdivisions.most_specific.iso_code`, `country.iso_code`,
`location.latitude`, `location.longitude`. Each can be `None`. -/
structure CityResponse where
  city_name : Option String
  subdivision_name : Option String
  country_name : Option String
  subdivision_iso_code : Option String
  country_iso_code : Option String
  latitude : Option Float
  longitude : Option Float

/-- The ordered result record built by `GeoIP.lookup` (src lines 80-107). -/
structure LookupResult where
  ip_address : String
  asn : Option Int
  organization : Option String
  location_string : Option String
  city : Option String
  subdivision : Option String
  country : Option String
  subdivision_iso : Option String
  country_iso : Option String
  latitude : Option Float
  longitude : Option Float

/-- The all-null record built in the `AddressNotFoundError` handler
(src lines 95-107): every field is `None` except `ip_address`. -/
def allNull (ip_address : String) : LookupResult :=
  { ip_address := ip_address
    asn := none
    organization := none
    location_string := none
    city := none
    subdivision := none
    country := none
    subdivision_iso := none
    country_iso := none
    latitude := none
    longitude := none }

/-- Python truthiness of an optional string: `None` and `""` are falsy. -/
def pyTruthy : Option String → Bool
  | none => false
  | some s => !s.isEmpty

/-- The `location_string` construction (src lines 71-78):

    location = []
    if city: location.append(city)
    if subdivision: location.append(subdivision)
    if country: location.append(country)
    location_string = ", ".join(location)
-/
def locationString (city subdivision country : Option String) : String :=
  let location : List String := []
  let location := if pyTruthy city then location ++ [city.getD ""] else location
  let location := if pyTruthy subdivision then location ++ [subdivision.getD ""] else location
  let location := if pyTruthy country then location ++ [country.getD ""] else location
  String.intercalate ", " location

/-- Modelled from the spec (for refinement comparison only): `location_string`
is the concatenation, in the order city then subdivision then country, of
exactly those of the three that are non-null and non-empty, joined by
`", "`. -/
def locationStringSpec (city subdivision country : Option String) : String :=
  String.intercalate ", "
    (([city, subdivision, country].filterMap id).filter (fun t => !t.isEmpty))

/-- The result record built on the success path of `GeoIP.lookup`
(src lines 62-92). -/
def mergeFound (ip_address : String) (asn_response : AsnResponse)
    (city_response : CityResponse) : LookupResult :=
  { ip_address := ip_address
    asn := asn_response.autonomous_system_number
    organization := asn_response.autonomous_system_organization
    location_string := some (locationString city_response.city_name
      city_response.subdivision_name city_response.country_name)
    city := city_response.city_name
    subdivision := city_response.subdivision_name
    country := city_response.country_name
    subdivision_iso := city_response.subdivision_iso_code
    country_iso := city_response.country_iso_code
    latitude := city_response.latitude
    longitude := city_response.longitude }

/-- Embedding of `GeoIP.lookup` (src lines 40-109), together with the list of
databases it queries. The two reader calls are modelled by the function
parameters `asnR` and `cityR`. The `try` block first queries the ASN
database, then the City database; `AddressNotFoundError` from either call
yields the all-null record, any other reader exception propagates, and no
private-address check is performed anywhere (`is_private_ip` has no caller in
the source). -/
def lookupWithTrace (asnR : String → ReaderResult AsnResponse)
    (cityR : String → ReaderResult CityResponse) (ip_address : String) :
    Except PyExc LookupResult × List DbKind :=
  match asnR ip_address with
  | ReaderResult.failure => (Except.error PyExc.readerError, [DbKind.asn])
  | ReaderResult.notFound => (Except.ok (allNull ip_address), [DbKind.asn])
  | ReaderResult.found asn_response =>
    match cityR ip_address with
    | ReaderResult.failure => (Except.error PyExc.readerError, [DbKind.asn, DbKind.city])
    | ReaderResult.notFound => (Except.ok (allNull ip_address), [DbKind.asn, DbKind.city])
    | ReaderResult.found city_response =>
      (Except.ok (mergeFound ip_address asn_response city_response),
       [DbKind.asn, DbKind.city])

/-- The value returned (or exception raised) by `GeoIP.lookup`. -/
def lookup (asnR : String → ReaderResult AsnResponse)
    (cityR : String → ReaderResult CityResponse) (ip_address : String) :
    Except PyExc LookupResult :=
  (lookupWithTrace asnR cityR ip_address).1

/-- Embedding of `process_ip_addresses` (src lines 132-159). It gathers the
stripped, nonempty input lines and submits one lookup task per address to the
thread pool; but the very next line evaluates
`concurrent.futures.as_completed(future_to_ip)`, and the module only does
`from concurrent.futures import ThreadPoolExecutor` — the name `concurrent`
is not bound, so a `NameError` is raised before any result is collected,
whatever the input and whatever `num_threads` is. -/
def process_ip_addresses (asnR : String → ReaderResult AsnResponse)
    (cityR : String → ReaderResult CityResponse)
    (inputLines : List String) (num_threads : Nat) :
    Except PyExc (List LookupResult) :=
  let ip_addresses :=
    (inputLines.map (fun l => String.mk (pyStripChars l.toList))).filter
      (fun s => !s.isEmpty)
  let _ := ip_addresses
  let _ := num_threads
  let _ := (asnR, cityR)
  Except.error PyExc.nameError

/-- A reader in which no address has an entry. -/
def emptyAsnReader : String → ReaderResult AsnResponse :=
  fun _ => ReaderResult.notFound

/-- A city reader in which no address has an entry. -/
def emptyCityReader : String → ReaderResult CityResponse :=
  fun _ => ReaderResult.notFound


/-- C1 counterexample: the source requires the second octet of a `192` address
to lie in [16, 31], so `is_private_ip "192.0.2.1"` is `false`, not `true`. -/
theorem c1_counterexample_192_0_2_1 :
    is_private_ip "192.0.2.1" = Except.ok false ∧
      is_private_ip "192.0.2.1" ≠ Except.ok true := by decide

/-- C1 (amended): for every address string with exactly 4 dot-separated parts
whose first part is "192" and whose second part parses as an integer n,
`is_private_ip` returns true exactly when n lies in [16, 31]; in particular
`is_private_ip "192.0.2.1" = false`. -/
theorem c1_private_192_needs_second_octet_16_31 :
    (∀ (s : String) (n : Int),
      (pySplitStr '.' s).length = 4 →
      (pySplitStr '.' s).getD 0 "" = "192" →
      pyInt ((pySplitStr '.' s).getD 1 "") = some n →
      is_private_ip s = Except.ok (decide (16 ≤ n ∧ n ≤ 31))) ∧
    is_private_ip "192.0.2.1" = Except.ok false := by
  refine ⟨?_, by decide⟩
  intro s n h4 h0 hn
  simp only [is_private_ip]
  rw [if_pos ⟨h4, Or.inr (Or.inl h0)⟩, if_neg (by rw [h0]; decide), hn]

/-- Witness for the amended C1 at a concrete in-range input. -/
theorem c1_witness_192_16_0_1 : is_private_ip "192.16.0.1" = Except.ok true :=
  c1_private_192_needs_second_octet_16_31.1 "192.16.0.1" 16
    (by decide) (by decide) (by decide)

/-- C3 counterexample: an address whose first part is "172" and whose second
part does not parse as an integer makes `int(parts[1])` raise `ValueError`,
which `is_private_ip` propagates. -/
theorem c3_counterexample_valueerror :
    is_private_ip "172.x.0.1" = Except.error PyExc.valueError := by decide

/-- C3 (amended): `is_private_ip` returns a boolean for every input string
except exactly those with 4 dot-separated parts whose first part is "192" or
"172" and whose second part does not parse as an integer; on those it raises
`ValueError`. -/
theorem c3_exception_exactly_when_unparseable_second (s : String) :
    is_private_ip s = Except.error PyExc.valueError ↔
      ((pySplitStr '.' s).length = 4 ∧
       ((pySplitStr '.' s).getD 0 "" = "192" ∨ (pySplitStr '.' s).getD 0 "" = "172") ∧
       pyInt ((pySplitStr '.' s).getD 1 "") = none) := by
  by_cases h4 : (pySplitStr '.' s).length = 4
  · by_cases h10 : (pySplitStr '.' s).getD 0 "" = "10"
    · simp only [is_private_ip]
      rw [if_pos ⟨h4, Or.inl h10⟩, if_pos h10]
      constructor
      · intro h; exact absurd h (by simp)
      · rintro ⟨-, h1 | h1, -⟩ <;> rw [h10] at h1 <;> exact absurd h1 (by decide)
    · by_cases h17 : (pySplitStr '.' s).getD 0 "" = "192" ∨ (pySplitStr '.' s).getD 0 "" = "172"
      · simp only [is_private_ip]
        rw [if_pos ⟨h4, Or.inr h17⟩, if_neg h10]
        rcases hpi : pyInt ((pySplitStr '.' s).getD 1 "") with _ | n
        · exact iff_of_true rfl ⟨h4, h17, rfl⟩
        · exact iff_of_false (by simp) (fun h => Option.noConfusion h.2.2)
      · simp only [is_private_ip]
        rw [if_neg]
        · exact iff_of_false (by simp) (fun h => h17 h.2.1)
        · rintro ⟨-, h1 | h1⟩
          · exact h10 h1
          · exact h17 h1
  · simp only [is_private_ip]
    rw [if_neg (fun h => h4 h.1)]
    exact iff_of_false (by simp) (fun h => h4 h.1)

/-- C9: the four concrete classifications from the spec, and every string
that does not split into exactly 4 dot-separated parts is classified not
private. -/
theorem c9_concrete_values_and_non_ipv4 :
    is_private_ip "10.0.0.1" = Except.ok true ∧
    is_private_ip "172.16.5.5" = Except.ok true ∧
    is_private_ip "172.32.0.1" = Except.ok false ∧
    is_private_ip "8.8.8.8" = Except.ok false ∧
    ∀ s : String, (pySplitStr '.' s).length ≠ 4 → is_private_ip s = Except.ok false := by
  refine ⟨by decide, by decide, by decide, by decide, ?_⟩
  intro s h4
  simp only [is_private_ip]
  rw [if_neg (fun h => h4 h.1)]

/-- Witness for C9 on a 3-part string. -/
theorem c9_witness_three_parts : is_private_ip "1.2.3" = Except.ok false :=
  c9_concrete_values_and_non_ipv4.2.2.2.2 "1.2.3" (by decide)

/-- The source's `location_string` construction agrees with the spec's
description of it, for all option values of the three sub-fields. -/
theorem locationString_eq_spec (city subdivision country : Option String) :
    locationString city subdivision country = locationStringSpec city subdivision country := by
  rcases city with _ | c
  · rcases subdivision with _ | s
    · rcases country with _ | k
      · rfl
      · cases hk : k.isEmpty <;> simp [locationString, locationStringSpec, pyTruthy, hk]
    · rcases country with _ | k
      · cases hs : s.isEmpty <;> simp [locationString, locationStringSpec, pyTruthy, hs]
      · cases hs : s.isEmpty <;> cases hk : k.isEmpty <;>
          simp [locationString, locationStringSpec, pyTruthy, hs, hk]
  · rcases subdivision with _ | s
    · rcases country with _ | k
      · cases hc : c.isEmpty <;> simp [locationString, locationStringSpec, pyTruthy, hc]
      · cases hc : c.isEmpty <;> cases hk : k.isEmpty <;>
          simp [locationString, locationStringSpec, pyTruthy, hc, hk]
    · rcases country with _ | k
      · cases hc : c.isEmpty <;> cases hs : s.isEmpty <;>
          simp [locationString, locationStringSpec, pyTruthy, hc, hs]
      · cases hc : c.isEmpty <;> cases hs : s.isEmpty <;> cases hk : k.isEmpty <;>
          simp [locationString, locationStringSpec, pyTruthy, hc, hs, hk]

/-- C6: on the success path the `location_string` field is the concatenation,
in the order city then subdivision then country, of exactly the non-null,
non-empty values, joined by ", "; Paris/null/France gives "Paris, France" and
all-null gives "". -/
theorem c6_location_string_concatenation :
    (∀ (ip : String) (a : AsnResponse) (c : CityResponse),
      (mergeFound ip a c).location_string =
        some (locationStringSpec c.city_name c.subdivision_name c.country_name)) ∧
    locationString (some "Paris") none (some "France") = "Paris, France" ∧
    locationString none none none = "" := by
  refine ⟨?_, by decide, by decide⟩
  intro ip a c
  simp only [mergeFound, locationString_eq_spec]

/-- C2 (code evidence): the address "10.0.0.1" is classified private by
`is_private_ip`, yet `lookup` queries the ASN database for it whatever the
readers answer — the source never calls `is_private_ip`, so no private
short-circuit exists. -/
theorem c2_private_address_still_queries_database :
    is_private_ip "10.0.0.1" = Except.ok true ∧
    ∀ (asnR : String → ReaderResult AsnResponse)
      (cityR : String → ReaderResult CityResponse),
      DbKind.asn ∈ (lookupWithTrace asnR cityR "10.0.0.1").2 := by
  refine ⟨by decide, ?_⟩
  intro asnR cityR
  rcases ha : asnR "10.0.0.1" with a | _ | _ <;>
    rcases hc : cityR "10.0.0.1" with c | _ | _ <;>
    simp [lookupWithTrace, ha, hc]

/-- C4: if neither reader raises an exception other than AddressNotFoundError
for the address (the well-formed case) and at least one of them signals
AddressNotFoundError, then `lookup` returns the all-null record: every field
is null except `ip_address`, which is the input. -/
theorem c4_notfound_yields_allnull_record
    (asnR : String → ReaderResult AsnResponse)
    (cityR : String → ReaderResult CityResponse) (ip : String)
    (hA : asnR ip ≠ ReaderResult.failure) (hC : cityR ip ≠ ReaderResult.failure)
    (h : asnR ip = ReaderResult.notFound ∨ cityR ip = ReaderResult.notFound) :
    lookup asnR cityR ip = Except.ok (allNull ip) ∧
    (allNull ip).ip_address = ip ∧
    (allNull ip).asn = none ∧ (allNull ip).organization = none ∧
    (allNull ip).location_string = none ∧ (allNull ip).city = none ∧
    (allNull ip).subdivision = none ∧ (allNull ip).country = none ∧
    (allNull ip).subdivision_iso = none ∧ (allNull ip).country_iso = none ∧
    (allNull ip).latitude = none ∧ (allNull ip).longitude = none := by
  refine ⟨?_, rfl, rfl, rfl, rfl, rfl, rfl, rfl, rfl, rfl, rfl, rfl⟩
  rcases ha : asnR ip with a | _ | _
  · rcases hc : cityR ip with c | _ | _
    · rcases h with h | h
      · rw [ha] at h; exact absurd h (by simp)
      · rw [hc] at h; exact absurd h (by simp)
    · simp [lookup, lookupWithTrace, ha, hc]
    · exact absurd hc hC
  · simp [lookup, lookupWithTrace, ha]
  · exact absurd ha hA

/-- Witness for C4 with readers that have no entry for any address. -/
theorem c4_witness_empty_readers :
    lookup emptyAsnReader emptyCityReader "8.8.8.8" = Except.ok (allNull "8.8.8.8") ∧
    (allNull "8.8.8.8").ip_address = "8.8.8.8" ∧
    (allNull "8.8.8.8").asn = none ∧ (allNull "8.8.8.8").organization = none ∧
    (allNull "8.8.8.8").location_string = none ∧ (allNull "8.8.8.8").city = none ∧
    (allNull "8.8.8.8").subdivision = none ∧ (allNull "8.8.8.8").country = none ∧
    (allNull "8.8.8.8").subdivision_iso = none ∧ (allNull "8.8.8.8").country_iso = none ∧
    (allNull "8.8.8.8").latitude = none ∧ (allNull "8.8.8.8").longitude = none :=
  c4_notfound_yields_allnull_record emptyAsnReader emptyCityReader "8.8.8.8"
    (by simp [emptyAsnReader]) (by simp [emptyCityReader]) (Or.inl rfl)

/-- C5: on every branch that returns a result (record found, or address not
found), the `ip_address` field of the returned record is exactly the input
address string. -/
theorem c5_ip_address_preserved
    (asnR : String → ReaderResult AsnResponse)
    (cityR : String → ReaderResult CityResponse) (ip : String) (r : LookupResult)
    (h : lookup asnR cityR ip = Except.ok r) : r.ip_address = ip := by
  rcases ha : asnR ip with a | _ | _ <;> rcases hc : cityR ip with c | _ | _ <;>
    simp [lookup, lookupWithTrace, ha, hc] at h <;>
    exact h ▸ rfl

/-- Witness for C5 with readers that have no entry for any address. -/
theorem c5_witness_ip_preserved : (allNull "8.8.8.8").ip_address = "8.8.8.8" :=
  c5_ip_address_preserved emptyAsnReader emptyCityReader "8.8.8.8"
    (allNull "8.8.8.8") rfl

/-- C10: a returned record has a null `location_string` exactly when the
not-found branch was taken; when both reader responses are obtained the field
is a (possibly empty) string, never null. -/
theorem c10_null_location_iff_notfound_branch
    (asnR : String → ReaderResult AsnResponse)
    (cityR : String → ReaderResult CityResponse) (ip : String) (r : LookupResult)
    (h : lookup asnR cityR ip = Except.ok r) :
    (r.location_string = none ↔
      (asnR ip = ReaderResult.notFound ∨
       ∃ a, asnR ip = ReaderResult.found a ∧ cityR ip = ReaderResult.notFound)) := by
  rcases ha : asnR ip with a | _ | _ <;> rcases hc : cityR ip with c | _ | _ <;>
    simp [lookup, lookupWithTrace, ha, hc] at h <;>
    simp [← h, allNull, mergeFound, ha, hc]

/-- Witness for C10 with readers that have no entry for any address. -/
theorem c10_witness_notfound_branch :
    ((allNull "1.2.3.4").location_string = none ↔
      (emptyAsnReader "1.2.3.4" = ReaderResult.notFound ∨
       ∃ a, emptyAsnReader "1.2.3.4" = ReaderResult.found a ∧
            emptyCityReader "1.2.3.4" = ReaderResult.notFound)) :=
  c10_null_location_iff_notfound_branch emptyAsnReader emptyCityReader "1.2.3.4"
    (allNull "1.2.3.4") rfl

/-- C7 (code evidence): a 3-address batch whose second address makes the ASN
reader fail does not yield 2 results and one logged error — it raises
NameError, because the module only imports ThreadPoolExecutor and the name
`concurrent` in `concurrent.futures.as_completed(...)` is unbound. -/
theorem c7_batch_raises_nameerror :
    process_ip_addresses
      (fun ip => if ip = "203.0.113.9" then ReaderResult.failure else ReaderResult.notFound)
      emptyCityReader ["8.8.8.8", "203.0.113.9", "1.1.1.1"] 4
      = Except.error PyExc.nameError := rfl

/-- C8 (code evidence): with num_threads = 1 and num_threads = 8 over the same
input, the batch pipeline raises NameError both times and yields no set of
LookupResults at all. -/
theorem c8_both_threadcounts_raise_nameerror :
    process_ip_addresses emptyAsnReader emptyCityReader ["8.8.8.8", "1.1.1.1"] 1
        = Except.error PyExc.nameError ∧
    process_ip_addresses emptyAsnReader emptyCityReader ["8.8.8.8", "1.1.1.1"] 8
        = Except.error PyExc.nameError :=
  ⟨rfl, rfl⟩
